import Mathlib

/-!
Verification of the natural2sql SQL extraction / validation / retry pipeline.

This file shallowly embeds the Python code of the repository:
  * `src/src/sql_parser.py`      (SQLParser.extract_sql)
  * `src/src/sqlite_connector.py` (SQLiteConnector.validate_sql, execute_query)
  * `src/src/sql_executor.py`    (SQLExecutor._validate_sql, execute_query)
  * `src/src/error_handler.py`   (ErrorHandler.should_retry, handle_error)
  * `src/src/prompt_generator.py` (PromptGenerator)
  * `src/app.py`                 (the retry loop in main)

Strings are modelled as Lean `String`; Python string primitives
(`strip`, `rstrip`, `startswith`, `upper`, `lower`, `in`, `count`)
are embedded below with Python semantics (Unicode whitespace set of
`str.strip`; ASCII case mapping, which agrees with Python on all the
ASCII keywords involved).

The sqlite3 engine, pandas and `json.loads` are external libraries, not
code of this repository: the engine is abstracted as a function supplied
to the executor, and the JSON pattern of the extractor is abstracted as a
function `String → Option String` (the value found under the "sql" key of
a response that parses as a JSON object, `none` otherwise).
-/

namespace Natural2Sql

/-! ## Python string primitives -/

/-- Characters treated as whitespace by Python `str.strip()` / regex `\s`
(Unicode whitespace: ASCII \t \n \v \f \r and space, the C1/latin-1
separators, and the Unicode space separators). -/
def pyIsSpace (c : Char) : Bool :=
  c == ' ' || c == '\t' || c == '\n' || c == '\r' ||
  c.toNat == 11 || c.toNat == 12 ||
  c.toNat == 28 || c.toNat == 29 || c.toNat == 30 || c.toNat == 31 ||
  c.toNat == 133 || c.toNat == 160 || c.toNat == 5760 ||
  (8192 ≤ c.toNat && c.toNat ≤ 8202) ||
  c.toNat == 8232 || c.toNat == 8233 || c.toNat == 8239 ||
  c.toNat == 8287 || c.toNat == 12288

/-- Python `s.rstrip()` on a character list (drop trailing whitespace). -/
def stripRightList (l : List Char) : List Char :=
  (l.reverse.dropWhile pyIsSpace).reverse

/-- Python `s.strip()` on a character list. -/
def stripList (l : List Char) : List Char :=
  stripRightList (l.dropWhile pyIsSpace)

/-- Python `s.strip()`. -/
def pyStrip (s : String) : String := ⟨stripList s.toList⟩

/-- Python `s.rstrip()` (trailing whitespace only). -/
def pyStripRight (s : String) : String := ⟨stripRightList s.toList⟩

/-- Python `s.rstrip(";")`: drop trailing semicolon characters. -/
def pyRstripSemi (s : String) : String :=
  ⟨(s.toList.reverse.dropWhile (fun c => c == ';')).reverse⟩

/-- Test `startsWithL l p` : `p` is a prefix of `l` (Python `s.startswith(p)`). -/
def startsWithL : List Char → List Char → Bool
  | _, [] => true
  | [], _ :: _ => false
  | a :: as, b :: bs => a == b && startsWithL as bs

/-- Python `s.startswith(p)`. -/
def pyStartsWith (s p : String) : Bool := startsWithL s.toList p.toList

/-- Test `containsL hay pat` : `pat` occurs as a contiguous sublist of `hay`
(Python `pat in hay`). -/
def containsL (hay pat : List Char) : Bool :=
  match hay with
  | [] => startsWithL [] pat
  | c :: t => startsWithL (c :: t) pat || containsL t pat

/-- Python `needle in hay` (substring containment). -/
def containsSub (hay needle : String) : Bool := containsL hay.toList needle.toList

/-- ASCII upper-casing of one character (agrees with Python `str.upper`
on ASCII). -/
def asciiUpperChar (c : Char) : Char :=
  if 'a' ≤ c ∧ c ≤ 'z' then Char.ofNat (c.toNat - 32) else c

/-- ASCII lower-casing of one character (agrees with Python `str.lower`
on ASCII). -/
def asciiLowerChar (c : Char) : Char :=
  if 'A' ≤ c ∧ c ≤ 'Z' then Char.ofNat (c.toNat + 32) else c

/-- Embedding of Python `s.upper()` (ASCII case mapping). -/
def asciiUpper (s : String) : String := ⟨s.toList.map asciiUpperChar⟩

/-- Embedding of Python `s.lower()` (ASCII case mapping). -/
def asciiLower (s : String) : String := ⟨s.toList.map asciiLowerChar⟩

/-- Python `s.count(c)` for a single character. -/
def countChar (s : String) (c : Char) : Nat :=
  s.toList.countP (fun x => x == c)

/-! ## SQL Safety Validator
(`SQLiteConnector.validate_sql`, `src/src/sqlite_connector.py` lines
173-208, and `SQLExecutor._validate_sql`, `src/src/sql_executor.py`
lines 77-103). -/

/-- The `FORBIDDEN_PATTERNS` list of `SQLiteConnector` / `SQLExecutor` (identical
lists in both classes). -/
def FORBIDDEN_PATTERNS : List String :=
  ["INSERT", "UPDATE", "DELETE", "DROP", "CREATE", "ALTER", "TRUNCATE",
   "PRAGMA", "ATTACH", "DETACH", "VACUUM", "REINDEX"]

/-- The first denylisted keyword found in `sql.upper()`, scanning
`FORBIDDEN_PATTERNS` in list order (the `for pattern in
self.FORBIDDEN_PATTERNS` loop). -/
def findForbidden (sql : String) : Option String :=
  FORBIDDEN_PATTERNS.find? (fun p => containsSub (asciiUpper sql) p)

/-- Result dictionary of `SQLiteConnector.validate_sql`. -/
structure ValidationResult where
  valid : Bool
  error_type : Option String
  message : Option String
  deriving Repr, DecidableEq

/-- Embedding of `SQLiteConnector.validate_sql`: denylist substring check
on `sql.upper()` first, then the `sql.count(";") > 1` statement-count
check. -/
def validate_sql (sql : String) : ValidationResult :=
  match findForbidden sql with
  | some p =>
      { valid := false, error_type := some "forbidden_pattern",
        message := some ("禁止操作が含まれています: " ++ p) }
  | none =>
      if countChar sql ';' > 1 then
        { valid := false, error_type := some "multiple_statements",
          message := some "複数のステートメントは実行できません" }
      else
        { valid := true, error_type := none, message := none }

/-- Result dictionary of `SQLExecutor._validate_sql` (keys `valid`,
`error`). -/
structure ExecValidation where
  valid : Bool
  error : Option String
  deriving Repr, DecidableEq

/-- Embedding of `SQLExecutor._validate_sql`: same two checks as
`SQLiteConnector.validate_sql`, different result shape. -/
def SQLExecutor_validate_sql (sql : String) : ExecValidation :=
  match findForbidden sql with
  | some p => { valid := false, error := some ("禁止操作が含まれています: " ++ p) }
  | none =>
      if countChar sql ';' > 1 then
        { valid := false, error := some "複数のステートメントは実行できません" }
      else
        { valid := true, error := none }

/-! ## SQL Extractor (`SQLParser.extract_sql`, `src/src/sql_parser.py`) -/

/-- Case-insensitive (ASCII) prefix test, embedding `re.IGNORECASE`
literal matching for the ASCII patterns of the parser. -/
def startsWithCIL : List Char → List Char → Bool
  | _, [] => true
  | [], _ :: _ => false
  | a :: as, b :: bs => asciiLowerChar a == asciiLowerChar b && startsWithCIL as bs

/-- Characters of a fenced region up to (excluding) the first ```` ``` ````
marker; `none` when no closing marker follows. Embeds the lazy
`(.*?)\s*``` ` tail of pattern 1 of `extract_sql`. -/
def takeUntilFence : List Char → Option (List Char)
  | [] => none
  | c :: rest =>
      if startsWithL (c :: rest) ['`', '`', '`'] then some []
      else (takeUntilFence rest).map (fun l => c :: l)

/-- Pattern 1 of `extract_sql`: `re.search(r"```sql\s*(.*?)\s*```", resp,
DOTALL | IGNORECASE)`. Scans for the first occurrence of ```` ```sql ````
(tag matched case-insensitively) that is followed by a closing
```` ``` ````; returns the region between them (the `\s*` trimming is
subsumed by the later `.strip()` of the caller). -/
def scanFencedSql : List Char → Option (List Char)
  | [] => none
  | c :: rest =>
      if startsWithCIL (c :: rest) ['`', '`', '`', 's', 'q', 'l'] then
        match takeUntilFence ((c :: rest).drop 6) with
        | some inner => some inner
        | none => scanFencedSql rest
      else scanFencedSql rest

/-- Characters up to (excluding) the first `;`, or the whole list
(the `(?:;|\Z)` terminator of pattern 3). -/
def takeUntilSemi : List Char → List Char
  | [] => []
  | c :: rest => if c == ';' then [] else c :: takeUntilSemi rest

/-- Keyword match at the head of `l` followed by at least one whitespace
character (the `(?:WITH|SELECT)\s+` head of pattern 3). -/
def kwThenSpace (l kw : List Char) : Bool :=
  startsWithCIL l kw &&
    match l.drop kw.length with
    | d :: _ => pyIsSpace d
    | [] => false

/-- Pattern 3 of `extract_sql`:
`re.search(r"((?:WITH|SELECT)\s+.*?)(?:;|\Z)", resp, DOTALL | IGNORECASE)`.
The earliest position where `WITH` or `SELECT` (case-insensitive) is
followed by whitespace starts the match; the lazy group runs to the first
`;` or the end of the text. -/
def scanBareStatement : List Char → Option (List Char)
  | [] => none
  | c :: rest =>
      if kwThenSpace (c :: rest) ['w', 'i', 't', 'h'] ||
         kwThenSpace (c :: rest) ['s', 'e', 'l', 'e', 'c', 't'] then
        some (takeUntilSemi (c :: rest))
      else scanBareStatement rest

/-- Tagged outcome of `SQLParser.extract_sql` (the result dictionary's
`success` / `sql` / `error_type` / `error_message` fields). -/
inductive ExtractionResult where
  | success (sql : String)
  | invalidQuestion (message : String)
  | extractionFailed (message : String)
  deriving Repr, DecidableEq

/-- Embedding of `SQLParser.extract_sql`. `jsonStep` abstracts pattern 2
(`json.loads` of the whole response followed by the `"sql"`-key lookup of
the parsed object): it returns the raw string value when the response
parses to a JSON object with a string under key `"sql"`, else `none`.
Pattern order is exactly the source's: sentinel, fenced block, JSON,
bare statement, failure. -/
def extract_sql (jsonStep : String → Option String) (ai_response : String) :
    ExtractionResult :=
  if pyStartsWith (pyStrip ai_response) "ERROR:" then
    .invalidQuestion (pyStrip ai_response)
  else
    match scanFencedSql ai_response.toList with
    | some inner => .success (pyStrip ⟨inner⟩)
    | none =>
        match jsonStep ai_response with
        | some v => .success (pyStrip v)
        | none =>
            match scanBareStatement ai_response.toList with
            | some stmt => .success (pyStrip ⟨stmt⟩)
            | none => .extractionFailed "AI応答からSQLを抽出できませんでした"

/-- A `jsonStep` for concrete evaluations: a response that is not a JSON
object (every concrete response used below) yields `none` from pattern 2. -/
def jsonNone : String → Option String := fun _ => none

/-! ## Query Executor
(`SQLiteConnector.execute_query` lines 123-171 and
`SQLExecutor.execute_query` lines 105-205: identical LIMIT-injection and
error-wrapping logic). -/

/-- Layer 3 LIMIT injection, lines 151-156 / 145-150:
`sql_stripped = sql.strip().rstrip(";")`, then append
`" LIMIT {limit}"` unless `"LIMIT" in sql_stripped.upper()`. -/
def injectLimit (sql : String) (limit : Nat) : String :=
  let sql_stripped := pyRstripSemi (pyStrip sql)
  if containsSub (asciiUpper sql_stripped) "LIMIT" then sql_stripped
  else sql_stripped ++ " LIMIT " ++ toString limit

/-- One result row, as the column→value mapping built by the executor. -/
abbrev Row := List (String × String)

/-- Outcome of handing a statement to the sqlite3 engine (external
library, abstracted): resulting rows with their column names, an
`sqlite3.OperationalError` message, another `sqlite3.Error` message, or
any other exception message. -/
inductive SqliteOutcome where
  | rows (columns : List String) (data : List Row)
  | opError (message : String)
  | sqlError (message : String)
  | otherError (message : String)
  deriving Repr, DecidableEq

/-- An abstract sqlite3 engine: what the database does with each executed
statement text. -/
abbrev Engine := String → SqliteOutcome

/-- Result dictionary of `SQLExecutor.execute_query`. -/
inductive ExecResult where
  | ok (data : List Row) (columns : List String) (row_count : Nat)
      (sql_executed : String)
  | fail (error : String) (sql_executed : String)
  deriving Repr, DecidableEq

/-- The executed-statement text recorded in an `ExecResult`. -/
def ExecResult.sqlExecuted : ExecResult → String
  | .ok _ _ _ s => s
  | .fail _ s => s

/-- Embedding of `SQLExecutor.execute_query`: validate, inject LIMIT,
run on the engine, wrap errors exactly as the source's `except` arms do. -/
def SQLExecutor_execute_query (engine : Engine) (sql : String)
    (max_rows : Nat := 1000) : ExecResult :=
  match SQLExecutor_validate_sql sql with
  | ⟨false, some err⟩ => .fail err sql
  | ⟨false, none⟩ => .fail "" sql
  | ⟨true, _⟩ =>
      let sql_executed := injectLimit sql max_rows
      match engine sql_executed with
      | .rows columns data => .ok data columns data.length sql_executed
      | .opError m =>
          if containsSub (asciiLower m) "readonly" ||
             containsSub (asciiLower m) "attempt to write" then
            .fail "書込み操作は許可されていません（READ ONLYモード）" sql_executed
          else
            .fail ("SQL実行エラー: " ++ m) sql_executed
      | .sqlError m => .fail ("データベースエラー: " ++ m) sql_executed
      | .otherError m => .fail ("予期しないエラー: " ++ m) sql_executed

/-- Outcome of `SQLiteConnector.execute_query` as seen by `app.py`:
either a DataFrame (only its row count matters to the caller) or a raised
exception's message (`ValueError` from validation, `PermissionError` or
`RuntimeError` from execution). -/
inductive PyOutcome where
  | ok (rowCount : Nat)
  | exc (message : String)
  deriving Repr, DecidableEq

/-- Embedding of `SQLiteConnector.execute_query` (default `limit=1000`,
the call shape used by `app.py`): invalid SQL raises
`ValueError(validation["message"])`; engine errors are wrapped exactly as
the source's `except` arms do. -/
def connector_execute_query (engine : Engine) (sql : String) : PyOutcome :=
  match validate_sql sql with
  | ⟨false, _, some msg⟩ => .exc msg
  | ⟨false, _, none⟩ => .exc ""
  | ⟨true, _, _⟩ =>
      let sql_executed := injectLimit sql 1000
      match engine sql_executed with
      | .rows _ data => .ok data.length
      | .opError m =>
          if containsSub (asciiLower m) "readonly" ||
             containsSub (asciiLower m) "attempt to write" then
            .exc "書込み操作は許可されていません（READ ONLYモード）"
          else
            .exc ("SQL実行エラー: " ++ m)
      | .sqlError m => .exc ("データベースエラー: " ++ m)
      | .otherError m => .exc ("予期しないエラー: " ++ m)

/-! ## Error handler (`src/src/error_handler.py`) -/

/-- Table `ErrorHandler.ERROR_MESSAGES`: error type → user-facing message. -/
def ERROR_MESSAGES : List (String × String) :=
  [("invalid_question",
    "❌ この質問はデータベースクエリに変換できません\n\n💡 レストラン予約データ（会員、店舗、予約、レビュー等）に関する質問をしてください。"),
   ("timeout_error",
    "⏱️ タイムアウトエラー\n\n処理に時間がかかりすぎました。より単純なクエリをお試しください。"),
   ("permission_error",
    "🔒 権限エラー\n\nデータベースへの書込み操作は許可されていません。SELECT文のみ実行可能です。"),
   ("column_error",
    "📋 カラムエラー\n\n指定されたカラムが存在しません。利用可能なカラムを確認してください。"),
   ("table_error",
    "📊 テーブルエラー\n\n指定されたテーブルが存在しません。利用可能なテーブル: members, restaurants, reservations, access_logs, reviews, favorites"),
   ("syntax_error",
    "⚠️ SQL構文エラー\n\nSQLクエリの構文に誤りがあります。自動修正を試みます..."),
   ("extraction_failed",
    "🔍 SQL抽出失敗\n\nAI応答からSQLを抽出できませんでした。別の表現でお試しください。")]

/-- First value bound to `k` in an association list (Python
`dict.get(k, default)` with the default supplied by the caller). -/
def dictGet (l : List (String × String)) (k : String) : Option String :=
  (l.find? (fun p => p.fst == k)).map (fun p => p.snd)

/-- The `display_message` field of `ErrorHandler.handle_error`. -/
def handle_error_display (error_type error_message : String) : String :=
  (dictGet ERROR_MESSAGES error_type).getD
    ("❌ エラーが発生しました\n\n" ++ error_message)

/-- The `retryable_errors` list of `ErrorHandler.should_retry`. -/
def retryable_errors : List String :=
  ["syntax_error", "column_error", "table_error", "extraction_failed"]

/-- The `non_retryable_errors` list of `ErrorHandler.should_retry`. -/
def non_retryable_errors : List String :=
  ["invalid_question", "timeout_error", "permission_error"]

/-- Embedding of `ErrorHandler.should_retry`. -/
def should_retry (error_type : String) : Bool :=
  if retryable_errors.contains error_type then true
  else if non_retryable_errors.contains error_type then false
  else true

/-! ## Retry Orchestrator (`app.py` `main`, lines 292-436) -/

/-- The `error_context` dictionary the retry loop carries between
attempts (`{"sql": ..., "error_message": ...}`). -/
structure ErrorContext where
  sql : Option String
  error_message : String
  deriving Repr, DecidableEq

/-- The execution-error classification of `app.py` lines 395-401:
default `syntax_error`; permission wording first, then
`"no such column"`, then `"no such table"` on the lower-cased message. -/
def classify_error (m : String) : String :=
  if containsSub m "禁止操作" || containsSub m "許可されていません" then
    "permission_error"
  else if containsSub (asciiLower m) "no such column" then "column_error"
  else if containsSub (asciiLower m) "no such table" then "table_error"
  else "syntax_error"

/-- Terminal state of one user question's retry loop (each constructor is
one of the `return` / `break` exits of the loop in `app.py`). -/
inductive Terminal where
  | invalidQuestion (message : String)
  | extractionExhausted
  | executionExhausted (errMsg sql : String)
  | nonRetryable (errorType errMsg sql : String)
  | success (rowCount : Nat) (sql : String)
  | noAttempts
  deriving Repr, DecidableEq

/-- The user-facing `st.error` text at each terminal state (`app.py`
lines 316, 334, 419, 426; the success and zero-budget cases show no
error). -/
def terminalDisplay : Terminal → String
  | .invalidQuestion msg => handle_error_display "invalid_question" msg
  | .extractionExhausted => "❌ SQL抽出に失敗しました（リトライ上限）"
  | .executionExhausted _ _ => "❌ SQL実行に失敗しました（リトライ上限）"
  | .nonRetryable et m _ => handle_error_display et m
  | .success _ _ => ""
  | .noAttempts => ""

/-- Trace of one run of the retry loop: terminal state, the number of AI
`generate` calls made, and the `error_context` passed to
`prompt_gen.generate` for each AI call in order (`none` = first-attempt
prompt without error block). -/
structure Trace where
  terminal : Terminal
  aiCalls : Nat
  contexts : List (Option ErrorContext)
  deriving Repr, DecidableEq

/-- Decision taken by one iteration of the retry loop: stop at a
terminal state (a `return` or `break` of the source), or `continue` into
the next attempt carrying a fresh `error_context`. -/
inductive StepDecision where
  | stop (t : Terminal)
  | retry (ec : ErrorContext)
  deriving Repr, DecidableEq

/-- Body of one iteration of the `for attempt in range(max_retries)`
loop of `app.py` for the AI response `resp`. `budgetLeft` is the
source's `attempt < max_retries - 1` test. The order is the source's:
extraction; `invalid_question` returns; `extraction_failed` retries with
`{"sql": None, ...}` or returns the extraction retry-limit failure;
otherwise execution; success breaks; an execution exception is
classified and consulted against `should_retry` only when budget
remains, retrying with `{"sql": sql, "error_message": ...}`; on the last
attempt it returns the execution retry-limit failure unclassified. -/
def attemptStep (jsonStep : String → Option String) (engine : Engine)
    (resp : String) (budgetLeft : Bool) : StepDecision :=
  match extract_sql jsonStep resp with
  | .invalidQuestion msg => .stop (.invalidQuestion msg)
  | .extractionFailed msg =>
      if budgetLeft then .retry ⟨none, msg⟩
      else .stop .extractionExhausted
  | .success sql =>
      match connector_execute_query engine sql with
      | .ok n => .stop (.success n sql)
      | .exc m =>
          if budgetLeft then
            if should_retry (classify_error m) then .retry ⟨some sql, m⟩
            else .stop (.nonRetryable (classify_error m) m sql)
          else .stop (.executionExhausted m sql)

/-- The `for attempt in range(max_retries)` loop of `app.py`,
structurally recursive on the number of remaining iterations.
`responses k` is the AI backend's text for the `k`-th `generate` call
(the AI client is external and abstracted); with `remaining = r + 1`
iterations left, the source's `attempt < max_retries - 1` test is
`0 < r`. Each iteration counts one AI call and records the
`error_context` its prompt was generated from. -/
def runLoop (jsonStep : String → Option String) (responses : Nat → String)
    (engine : Engine) :
    Nat → Option ErrorContext → Nat → List (Option ErrorContext) → Trace
  | 0, _, calls, ctxs => ⟨.noAttempts, calls, ctxs⟩
  | r + 1, ec, calls, ctxs =>
      match attemptStep jsonStep engine (responses calls) (decide (0 < r)) with
      | .stop t => ⟨t, calls + 1, ctxs ++ [ec]⟩
      | .retry ec' =>
          runLoop jsonStep responses engine r (some ec') (calls + 1)
            (ctxs ++ [ec])

/-- The whole retry loop of `main` for one question:
`max_retries = Config.MAX_RETRIES` (default 3), starting with
`error_context = None` and no AI calls made. -/
def main_retry (jsonStep : String → Option String) (responses : Nat → String)
    (engine : Engine) (max_retries : Nat) : Trace :=
  runLoop jsonStep responses engine max_retries none 0 []

/-- One attempt's outcome is a retryable failure: extraction failed, or
execution raised and the classified error type is retryable. (Sentinel
responses and successful executions are not retryable failures.) -/
def retryableAttempt (jsonStep : String → Option String) (engine : Engine)
    (resp : String) : Bool :=
  match extract_sql jsonStep resp with
  | .invalidQuestion _ => false
  | .extractionFailed _ => true
  | .success sql =>
      match connector_execute_query engine sql with
      | .ok _ => false
      | .exc m => should_retry (classify_error m)

/-! ## Prompt Builder (`src/src/prompt_generator.py`) -/

/-- One column descriptor of the schema input
(`{column_name, data_type, is_primary_key}`). -/
structure ColumnInfo where
  column_name : String
  data_type : String
  is_primary_key : Bool
  deriving Repr, DecidableEq

/-- One table descriptor of the schema input (`{table_name, columns}`). -/
structure TableInfo where
  table_name : String
  columns : List ColumnInfo
  deriving Repr, DecidableEq

/-- State of a `PromptGenerator` instance: the three values stored by
`__init__` (`self.schema`, `self.logical_names` as an association list,
`self.business_terms` as `(term, definition)` pairs). -/
structure PromptGenerator where
  schema : List TableInfo
  logical_names : List (String × String)
  business_terms : List (String × String)
  deriving Repr, DecidableEq

/-- One column definition line of `_build_schema_section` (the body of
the `for col in columns` loop): physical name, type, optional
`PRIMARY KEY`, optional `--` logical-name comment when a logical name
exists and differs from the physical name. -/
def buildColDef (logical_names : List (String × String)) (col : ColumnInfo) :
    String :=
  let logical_name := (dictGet logical_names col.column_name).getD ""
  let base := "    " ++ col.column_name ++ " " ++ col.data_type
  let base := if col.is_primary_key then base ++ " PRIMARY KEY" else base
  if logical_name ≠ "" ∧ logical_name ≠ col.column_name then
    base ++ "  -- " ++ logical_name
  else base

/-- Embedding of `PromptGenerator._build_schema_section`: per table the
three lines `CREATE TABLE t (`, the comma-joined column definitions and
`);\n`, all joined with `\n`. -/
def build_schema_section (g : PromptGenerator) : String :=
  String.intercalate "\n"
    ((g.schema.map (fun t =>
      ["CREATE TABLE " ++ t.table_name ++ " (",
       String.intercalate ",\n" (t.columns.map (buildColDef g.logical_names)),
       ");\n"])).flatten)

/-- The business-terms block of `generate` (empty when
`self.business_terms` is empty; terms with an empty term or definition
are skipped). -/
def businessSection (g : PromptGenerator) : String :=
  if g.business_terms = [] then ""
  else
    "\n\n**ビジネス用語の定義:**\n" ++
      String.join (g.business_terms.map (fun p =>
        if p.fst ≠ "" ∧ p.snd ≠ "" then
          "- " ++ p.fst ++ ": " ++ p.snd ++ "\n"
        else ""))

/-- The previous-error block of `generate`: empty for `None`, otherwise
the f-string with `error_context.get('sql')` (a `None` SQL renders as
the Python literal `None`) and `error_context.get('error_message')`. -/
def errorSection : Option ErrorContext → String
  | none => ""
  | some ec =>
      "\n\n**前回のエラー情報（修正してください）:**\n- 実行したSQL: " ++
      (match ec.sql with | some s => s | none => "None") ++
      "\n- エラーメッセージ: " ++ ec.error_message ++
      "\n\n上記のエラーを修正したSQLクエリを生成してください。\n"

/-- Embedding of `PromptGenerator.generate`: the concatenation
`system_prompt + schema_section + business_section + constraints +
user_section + error_section + output_format`, with every fixed block
transcribed from the source. -/
def generate (g : PromptGenerator) (user_input : String)
    (error_context : Option ErrorContext) : String :=
  let system_prompt :=
    "あなたはSQLエキスパートです。\n自然言語の質問をSQLクエリに変換してください。\n\n以下のデータベーススキーマを使用してください:"
  let schema_section := "\n\n" ++ build_schema_section g
  let constraints :=
    "\n\n**重要な制約:**\n- データベースに無関係な質問（天気、ニュース、一般知識等）には、以下の形式で応答してください:\n  ERROR: この質問はデータベースクエリに変換できません\n- SQLite構文を使用してください（MySQL構文は不可）\n- 日付関数: date('now'), date('now', '-30 days') 等を使用\n"
  let user_section := "\n\nユーザーの質問:\n" ++ user_input ++ "\n\n"
  let output_format :=
    "\n**出力形式:**\nSQLクエリのみを出力してください。説明文は不要です。\n以下のいずれかの形式で出力してください:\n\n1. ```sql で囲む形式:\n```sql\nSELECT * FROM members WHERE age >= 30\n```\n\n2. JSON形式:\n\x7b\"sql\": \"SELECT * FROM members WHERE age >= 30\"\x7d\n\n3. 直接SQL文:\nSELECT * FROM members WHERE age >= 30\n"
  system_prompt ++ schema_section ++ businessSection g ++ constraints ++
    user_section ++ errorSection error_context ++ output_format

/-! ## Helper lemmas -/

/-- If some element of `l` satisfies `p`, then `l.find? p` returns an
element that satisfies `p`, is a member, and is the earliest such. -/
lemma find?_of_exists {l : List String} {p : String → Bool}
    (h : ∃ x ∈ l, p x = true) :
    ∃ q, l.find? p = some q ∧ q ∈ l ∧ p q = true := by
  cases hq : l.find? p with
  | none =>
      obtain ⟨x, hx, hpx⟩ := h
      have := List.find?_eq_none.mp hq x hx
      simp [hpx] at this
  | some q =>
      exact ⟨q, rfl, List.mem_of_find?_eq_some hq, List.find?_some hq⟩

/-- A denylisted keyword occurring in `sql.upper()` forces `findForbidden`
to return a keyword that occurs. -/
lemma findForbidden_of_contains {sql p : String}
    (hp : p ∈ FORBIDDEN_PATTERNS)
    (hc : containsSub (asciiUpper sql) p = true) :
    ∃ q, findForbidden sql = some q ∧ q ∈ FORBIDDEN_PATTERNS ∧
      containsSub (asciiUpper sql) q = true := by
  obtain ⟨q, hq, hmem, hpq⟩ :=
    find?_of_exists (l := FORBIDDEN_PATTERNS)
      (p := fun x => containsSub (asciiUpper sql) x) ⟨p, hp, hc⟩
  exact ⟨q, hq, hmem, hpq⟩

/-! ## C1 -/

/-- C1 counterexample: the two-statement input `SELECT 1; SELECT 2`
contains exactly one `;`, so the `sql.count(";") > 1` check of both
validators accepts it — validation does NOT return
`multiple_statements`, contradicting the claim. -/
theorem c1_counterexample :
    validate_sql "SELECT 1; SELECT 2" =
      { valid := true, error_type := none, message := none } ∧
    SQLExecutor_validate_sql "SELECT 1; SELECT 2" =
      { valid := true, error := none } := by
  constructor <;> decide

/-- C1 (amended): for denylist-free SQL text, both validators reject with
`multiple_statements` exactly when the text contains more than one `;`
character; with at most one `;` they accept. In particular
`SELECT 1; SELECT 2` (one semicolon) is accepted and
`SELECT 1; SELECT 2;` is rejected. -/
theorem c1_amended (sql : String) (hnf : findForbidden sql = none) :
    (countChar sql ';' > 1 →
      validate_sql sql =
        { valid := false, error_type := some "multiple_statements",
          message := some "複数のステートメントは実行できません" } ∧
      SQLExecutor_validate_sql sql =
        { valid := false, error := some "複数のステートメントは実行できません" }) ∧
    (countChar sql ';' ≤ 1 →
      validate_sql sql = { valid := true, error_type := none, message := none } ∧
      SQLExecutor_validate_sql sql = { valid := true, error := none }) := by
  constructor
  · intro hgt
    constructor
    · simp [validate_sql, hnf, hgt]
    · simp [SQLExecutor_validate_sql, hnf, hgt]
  · intro hle
    have hngt : ¬ countChar sql ';' > 1 := by omega
    constructor
    · simp [validate_sql, hnf, hngt]
    · simp [SQLExecutor_validate_sql, hnf, hngt]

/-- C1 amended-claim witness: `SELECT 1; SELECT 2;` has two semicolons
and no denylisted keyword, and is rejected with `multiple_statements`. -/
theorem c1_amended_witness :
    findForbidden "SELECT 1; SELECT 2;" = none ∧
    countChar "SELECT 1; SELECT 2;" ';' > 1 ∧
    validate_sql "SELECT 1; SELECT 2;" =
      { valid := false, error_type := some "multiple_statements",
        message := some "複数のステートメントは実行できません" } :=
  ⟨by decide, by decide,
    ((c1_amended "SELECT 1; SELECT 2;" (by decide)).1 (by decide)).1⟩

/-! ## C4 -/

/-- C4: any SQL text containing a denylisted keyword as a substring of
its upper-cased form is rejected by both validators with reason
`forbidden_pattern`, and the message names a denylisted keyword that
occurs in the text. -/
theorem c4_forbidden_keyword (sql p : String)
    (hp : p ∈ FORBIDDEN_PATTERNS)
    (hc : containsSub (asciiUpper sql) p = true) :
    (validate_sql sql).valid = false ∧
    (validate_sql sql).error_type = some "forbidden_pattern" ∧
    ∃ q, q ∈ FORBIDDEN_PATTERNS ∧ containsSub (asciiUpper sql) q = true ∧
      (validate_sql sql).message = some ("禁止操作が含まれています: " ++ q) ∧
      (SQLExecutor_validate_sql sql).valid = false ∧
      (SQLExecutor_validate_sql sql).error =
        some ("禁止操作が含まれています: " ++ q) := by
  obtain ⟨q, hq, hmem, hqc⟩ := findForbidden_of_contains hp hc
  refine ⟨?_, ?_, q, hmem, hqc, ?_, ?_, ?_⟩ <;>
    simp [validate_sql, SQLExecutor_validate_sql, hq]

/-- C4 witness: `DELETE FROM members` is rejected with
`forbidden_pattern`, and the message names `DELETE`. -/
theorem c4_forbidden_keyword_witness :
    ("DELETE" ∈ FORBIDDEN_PATTERNS ∧
     containsSub (asciiUpper "DELETE FROM members") "DELETE" = true ∧
     (validate_sql "DELETE FROM members").error_type =
       some "forbidden_pattern") ∧
    (validate_sql "DELETE FROM members").message =
      some "禁止操作が含まれています: DELETE" :=
  ⟨⟨by decide, by decide,
    (c4_forbidden_keyword "DELETE FROM members" "DELETE" (by decide)
      (by decide)).2.1⟩, by decide⟩

/-! ## C9 -/

/-- C9: the denylist check runs before the statement-count check, so SQL
text containing a denylisted keyword and more than one semicolon reports
`forbidden_pattern`, never `multiple_statements`; the message names the
first matching keyword in denylist order (fixed scenarios: the
three-statement input names `DELETE`; when both `DROP` and `UPDATE`
occur, `UPDATE` — earlier in the denylist — is named even though `DROP`
occurs first in the text). -/
theorem c9_denylist_before_count (sql : String)
    (hf : ∃ p ∈ FORBIDDEN_PATTERNS, containsSub (asciiUpper sql) p = true)
    (_hsemi : countChar sql ';' > 1) :
    (validate_sql sql).error_type = some "forbidden_pattern" ∧
    (validate_sql sql).error_type ≠ some "multiple_statements" ∧
    validate_sql "SELECT 1; DELETE FROM x; SELECT 2" =
      { valid := false, error_type := some "forbidden_pattern",
        message := some "禁止操作が含まれています: DELETE" } ∧
    validate_sql "DROP TABLE t; UPDATE u; SELECT 1" =
      { valid := false, error_type := some "forbidden_pattern",
        message := some "禁止操作が含まれています: UPDATE" } := by
  obtain ⟨p, hp, hc⟩ := hf
  obtain ⟨q, hq, hmem, hqc⟩ := findForbidden_of_contains hp hc
  refine ⟨?_, ?_, by decide, by decide⟩ <;> simp [validate_sql, hq]

/-- C9 witness: `SELECT 1; DELETE FROM x; SELECT 2` contains `DELETE`
and two semicolons, and the theorem applies. -/
theorem c9_denylist_before_count_witness :
    (∃ p ∈ FORBIDDEN_PATTERNS,
      containsSub (asciiUpper "SELECT 1; DELETE FROM x; SELECT 2") p = true) ∧
    countChar "SELECT 1; DELETE FROM x; SELECT 2" ';' > 1 ∧
    (validate_sql "SELECT 1; DELETE FROM x; SELECT 2").error_type =
      some "forbidden_pattern" :=
  ⟨⟨"DELETE", by decide, by decide⟩, by decide,
    (c9_denylist_before_count "SELECT 1; DELETE FROM x; SELECT 2"
      ⟨"DELETE", by decide, by decide⟩ (by decide)).1⟩

/-! ## Sentinel helper -/

/-- Pattern 0 of `extract_sql` fires first: a trimmed response starting
with `ERROR:` yields `invalid_question` with the trimmed text, before any
other pattern is consulted. -/
lemma extract_sql_sentinel (jsonStep : String → Option String)
    (resp : String) (h : pyStartsWith (pyStrip resp) "ERROR:" = true) :
    extract_sql jsonStep resp = .invalidQuestion (pyStrip resp) := by
  simp [extract_sql, h]

/-! ## C3 -/

/-- C3: every response whose trimmed text begins with the sentinel prefix
`ERROR:` is extracted as `invalid_question` carrying the full trimmed
text, regardless of the JSON step and of any fenced block or bare
statement elsewhere in the response (the sentinel check precedes all
other patterns). -/
theorem c3_sentinel_priority (jsonStep : String → Option String)
    (resp : String) (h : pyStartsWith (pyStrip resp) "ERROR:" = true) :
    extract_sql jsonStep resp = .invalidQuestion (pyStrip resp) :=
  extract_sql_sentinel jsonStep resp h

/-- C3 witness: a sentinel response that also embeds a fenced SQL block
and a bare SELECT statement is still extracted as `invalid_question`. -/
theorem c3_sentinel_priority_witness :
    pyStartsWith
      (pyStrip " ERROR: no ```sql\nSELECT 1\n``` and SELECT 2;") "ERROR:" =
      true ∧
    extract_sql jsonNone " ERROR: no ```sql\nSELECT 1\n``` and SELECT 2;" =
      .invalidQuestion
        (pyStrip " ERROR: no ```sql\nSELECT 1\n``` and SELECT 2;") :=
  ⟨by decide,
    c3_sentinel_priority jsonNone
      " ERROR: no ```sql\nSELECT 1\n``` and SELECT 2;" (by decide)⟩

/-! ## C10 -/

/-- C10: the sentinel check is case-sensitive and prefix-exact — when the
trimmed response does not start with the exact text `ERROR:` (e.g. it
starts with `error:` or `Error:`), extraction never returns
`invalid_question`: it falls through to the fenced-block, JSON and
bare-statement patterns and yields either an extracted SQL success or
`extraction_failed`. -/
theorem c10_sentinel_case_sensitive (jsonStep : String → Option String)
    (resp : String) (h : pyStartsWith (pyStrip resp) "ERROR:" = false) :
    (∀ msg, extract_sql jsonStep resp ≠ .invalidQuestion msg) ∧
    ((∃ s, extract_sql jsonStep resp = .success s) ∨
     (∃ m, extract_sql jsonStep resp = .extractionFailed m)) := by
  have hres : extract_sql jsonStep resp =
      (match scanFencedSql resp.toList with
       | some inner => .success (pyStrip ⟨inner⟩)
       | none =>
           match jsonStep resp with
           | some v => .success (pyStrip v)
           | none =>
               match scanBareStatement resp.toList with
               | some stmt => .success (pyStrip ⟨stmt⟩)
               | none =>
                   .extractionFailed "AI応答からSQLを抽出できませんでした") := by
    simp [extract_sql, h]
  rw [hres]
  cases scanFencedSql resp.toList with
  | some inner => exact ⟨fun msg => by simp, Or.inl ⟨_, rfl⟩⟩
  | none =>
      cases jsonStep resp with
      | some v => exact ⟨fun msg => by simp, Or.inl ⟨_, rfl⟩⟩
      | none =>
          cases scanBareStatement resp.toList with
          | some stmt => exact ⟨fun msg => by simp, Or.inl ⟨_, rfl⟩⟩
          | none => exact ⟨fun msg => by simp, Or.inr ⟨_, rfl⟩⟩

/-- C10 witness: the lowercase-sentinel response
`error: この質問はデータベースクエリに変換できません` is not treated as
`invalid_question` (it in fact fails extraction). -/
theorem c10_sentinel_case_sensitive_witness :
    pyStartsWith (pyStrip "error: この質問はデータベースクエリに変換できません")
      "ERROR:" = false ∧
    (∀ msg, extract_sql jsonNone
      "error: この質問はデータベースクエリに変換できません" ≠
        .invalidQuestion msg) ∧
    extract_sql jsonNone "error: この質問はデータベースクエリに変換できません" =
      .extractionFailed "AI応答からSQLを抽出できませんでした" :=
  ⟨by decide,
    (c10_sentinel_case_sensitive jsonNone
      "error: この質問はデータベースクエリに変換できません" (by decide)).1,
    by decide⟩

/-! ## C5 -/

/-- For text with no leading whitespace (e.g. text beginning with
`SELECT`), Python `strip()` only removes trailing whitespace. -/
lemma pyStrip_of_no_leading {s : String}
    (h : s.toList.dropWhile pyIsSpace = s.toList) :
    pyStrip s = pyStripRight s := by
  have h' : List.dropWhile pyIsSpace s.data = s.data := h
  simp [pyStrip, pyStripRight, stripList, h']

/-- C5: for a valid statement with no leading whitespace, if the
stripped text contains no `LIMIT` (case-insensitive substring search),
the executed statement is exactly the input with trailing whitespace and
trailing semicolons stripped plus an appended ` LIMIT <cap>`, and — for
any engine in which a statement ending in ` LIMIT <cap>` returns at most
`cap` rows — the returned row count never exceeds `cap`; if the text
does contain `LIMIT`, the executed statement is only the stripped
input. -/
theorem c5_limit_injection (engine : Engine) (sql : String) (cap : Nat)
    (hLim : ∀ q cols rows,
      engine (q ++ " LIMIT " ++ toString cap) = .rows cols rows →
      rows.length ≤ cap)
    (hlead : sql.toList.dropWhile pyIsSpace = sql.toList)
    (hvalid : (SQLExecutor_validate_sql sql).valid = true) :
    (containsSub (asciiUpper (pyRstripSemi (pyStripRight sql))) "LIMIT" =
        false →
      (SQLExecutor_execute_query engine sql cap).sqlExecuted =
        pyRstripSemi (pyStripRight sql) ++ " LIMIT " ++ toString cap ∧
      ∀ data cols n s,
        SQLExecutor_execute_query engine sql cap = .ok data cols n s →
        n ≤ cap) ∧
    (containsSub (asciiUpper (pyRstripSemi (pyStripRight sql))) "LIMIT" =
        true →
      (SQLExecutor_execute_query engine sql cap).sqlExecuted =
        pyRstripSemi (pyStripRight sql)) := by
  have hstrip : pyRstripSemi (pyStrip sql) = pyRstripSemi (pyStripRight sql) := by
    rw [pyStrip_of_no_leading hlead]
  obtain ⟨e, hv⟩ : ∃ e, SQLExecutor_validate_sql sql =
      { valid := true, error := e } := by
    cases h : SQLExecutor_validate_sql sql with
    | mk v er =>
        cases v with
        | false => rw [h] at hvalid; simp at hvalid
        | true => exact ⟨er, rfl⟩
  constructor
  · intro hml
    have hinj : injectLimit sql cap =
        pyRstripSemi (pyStripRight sql) ++ " LIMIT " ++ toString cap := by
      simp [injectLimit, hstrip, hml]
    constructor
    · simp only [SQLExecutor_execute_query, hv]
      rw [hinj]
      cases engine (pyRstripSemi (pyStripRight sql) ++ " LIMIT " ++
          toString cap) with
      | rows cols data => simp [ExecResult.sqlExecuted]
      | opError m =>
          by_cases hro : (containsSub (asciiLower m) "readonly" ||
              containsSub (asciiLower m) "attempt to write") = true
          · simp [hro, ExecResult.sqlExecuted]
          · simp only [Bool.or_eq_true] at hro
            push_neg at hro
            simp [hro.1, hro.2, ExecResult.sqlExecuted]
      | sqlError m => simp [ExecResult.sqlExecuted]
      | otherError m => simp [ExecResult.sqlExecuted]
    · intro data cols n s hok
      simp only [SQLExecutor_execute_query, hv] at hok
      rw [hinj] at hok
      cases heng : engine (pyRstripSemi (pyStripRight sql) ++ " LIMIT " ++
          toString cap) with
      | rows cols' data' =>
          rw [heng] at hok
          simp only [ExecResult.ok.injEq] at hok
          have hlen := hLim _ _ _ heng
          omega
      | opError m =>
          rw [heng] at hok
          by_cases hro : (containsSub (asciiLower m) "readonly" ||
              containsSub (asciiLower m) "attempt to write") = true
          · simp [hro] at hok
          · simp only [Bool.or_eq_true] at hro
            push_neg at hro
            simp [hro.1, hro.2] at hok
      | sqlError m => rw [heng] at hok; simp at hok
      | otherError m => rw [heng] at hok; simp at hok
  · intro hml
    have hinj : injectLimit sql cap = pyRstripSemi (pyStripRight sql) := by
      simp [injectLimit, hstrip, hml]
    simp only [SQLExecutor_execute_query, hv]
    rw [hinj]
    cases engine (pyRstripSemi (pyStripRight sql)) with
    | rows cols data => simp [ExecResult.sqlExecuted]
    | opError m =>
        by_cases hro : (containsSub (asciiLower m) "readonly" ||
            containsSub (asciiLower m) "attempt to write") = true
        · simp [hro, ExecResult.sqlExecuted]
        · simp only [Bool.or_eq_true] at hro
          push_neg at hro
          simp [hro.1, hro.2, ExecResult.sqlExecuted]
    | sqlError m => simp [ExecResult.sqlExecuted]
    | otherError m => simp [ExecResult.sqlExecuted]

/-- C5 witness: `SELECT name FROM members ; ` (trailing whitespace and
semicolon, no LIMIT) executed with cap 1000 on an engine returning no
rows runs exactly `SELECT name FROM members LIMIT 1000`. -/
theorem c5_limit_injection_witness :
    (SQLExecutor_validate_sql "SELECT name FROM members ; ").valid = true ∧
    (SQLExecutor_execute_query (fun _ => .rows [] [])
        "SELECT name FROM members ; " 1000).sqlExecuted =
      pyRstripSemi (pyStripRight "SELECT name FROM members ; ") ++
        " LIMIT " ++ toString 1000 :=
  ⟨by decide,
    ((c5_limit_injection (fun _ => .rows [] [])
        "SELECT name FROM members ; " 1000
        (fun q cols rows h => by
          cases h
          simp)
        (by decide) (by decide)).1 (by decide)).1⟩

/-! ## C8 -/

/-- C8: the Prompt Builder is a pure function of the generator's stored
inputs (schema, logical names, business terms) and the per-call inputs
(question, error context): two generators holding equal data produce
identical prompt strings for equal questions and error contexts. -/
theorem c8_prompt_deterministic (g1 g2 : PromptGenerator)
    (q : String) (ec : Option ErrorContext)
    (h1 : g1.schema = g2.schema)
    (h2 : g1.logical_names = g2.logical_names)
    (h3 : g1.business_terms = g2.business_terms) :
    generate g1 q ec = generate g2 q ec := by
  obtain ⟨s1, l1, b1⟩ := g1
  obtain ⟨s2, l2, b2⟩ := g2
  simp only at h1 h2 h3
  subst h1 h2 h3
  rfl

/-- C8 witness: a concrete generator applied twice to the same question
and error context yields the same prompt. -/
theorem c8_prompt_deterministic_witness :
    generate
      ⟨[⟨"members", [⟨"member_id", "INTEGER", true⟩,
                     ⟨"age", "INTEGER", false⟩]⟩],
       [("member_id", "会員ID")], [("休眠会員", "90日以上予約なし")]⟩
      "30代の会員は何人いますか？" (some ⟨some "SELECT x", "no such column: x"⟩) =
    generate
      ⟨[⟨"members", [⟨"member_id", "INTEGER", true⟩,
                     ⟨"age", "INTEGER", false⟩]⟩],
       [("member_id", "会員ID")], [("休眠会員", "90日以上予約なし")]⟩
      "30代の会員は何人いますか？" (some ⟨some "SELECT x", "no such column: x"⟩) :=
  c8_prompt_deterministic _ _ _ _ rfl rfl rfl

/-! ## Orchestrator helper lemmas -/

/-- One-step unfolding of `runLoop` on a successor budget. -/
lemma runLoop_succ (jsonStep : String → Option String)
    (responses : Nat → String) (engine : Engine) (r : Nat)
    (ec : Option ErrorContext) (calls : Nat)
    (ctxs : List (Option ErrorContext)) :
    runLoop jsonStep responses engine (r + 1) ec calls ctxs =
      match attemptStep jsonStep engine (responses calls) (decide (0 < r)) with
      | .stop t => ⟨t, calls + 1, ctxs ++ [ec]⟩
      | .retry ec' =>
          runLoop jsonStep responses engine r (some ec') (calls + 1)
            (ctxs ++ [ec]) := rfl

/-- A retryable attempt retries when budget remains, and stops at a
retry-exhausted terminal on the last attempt. -/
lemma attemptStep_of_retryable {jsonStep : String → Option String}
    {engine : Engine} {resp : String}
    (h : retryableAttempt jsonStep engine resp = true) :
    (∃ ec', attemptStep jsonStep engine resp true = .retry ec') ∧
    (attemptStep jsonStep engine resp false = .stop .extractionExhausted ∨
     ∃ m s, attemptStep jsonStep engine resp false =
       .stop (.executionExhausted m s)) := by
  rw [retryableAttempt] at h
  cases hx : extract_sql jsonStep resp with
  | invalidQuestion m =>
      simp only [hx] at h
      exact absurd h (by decide)
  | extractionFailed m =>
      refine ⟨⟨⟨none, m⟩, ?_⟩, Or.inl ?_⟩ <;> simp [attemptStep, hx]
  | success sql =>
      simp only [hx] at h
      cases he : connector_execute_query engine sql with
      | ok n =>
          simp only [he] at h
          exact absurd h (by decide)
      | exc m =>
          simp only [he] at h
          refine ⟨⟨⟨some sql, m⟩, ?_⟩, Or.inr ⟨m, sql, ?_⟩⟩ <;>
            simp [attemptStep, hx, he, h]

/-- Each loop iteration makes exactly one AI call, so a run with `r`
remaining iterations makes at most `r` further calls. -/
lemma runLoop_calls_le (jsonStep : String → Option String)
    (responses : Nat → String) (engine : Engine) :
    ∀ (r : Nat) (ec : Option ErrorContext) (calls : Nat)
      (ctxs : List (Option ErrorContext)),
      (runLoop jsonStep responses engine r ec calls ctxs).aiCalls ≤ calls + r := by
  intro r
  induction r with
  | zero => intro ec calls ctxs; simp [runLoop]
  | succ r ih =>
      intro ec calls ctxs
      cases hd : attemptStep jsonStep engine (responses calls)
          (decide (0 < r)) with
      | stop t => simp only [runLoop, hd]; omega
      | retry ec' =>
          simp only [runLoop, hd]
          have := ih (some ec') (calls + 1) (ctxs ++ [ec])
          omega

/-- Under consecutive retryable failures the loop consumes its whole
budget: with `r ≥ 1` remaining iterations it makes exactly `r` further
AI calls and ends in one of the two retry-exhausted terminals. -/
lemma runLoop_all_retryable (jsonStep : String → Option String)
    (responses : Nat → String) (engine : Engine)
    (hall : ∀ k, retryableAttempt jsonStep engine (responses k) = true) :
    ∀ (r : Nat) (ec : Option ErrorContext) (calls : Nat)
      (ctxs : List (Option ErrorContext)), 1 ≤ r →
      (runLoop jsonStep responses engine r ec calls ctxs).aiCalls = calls + r ∧
      ((runLoop jsonStep responses engine r ec calls ctxs).terminal =
          .extractionExhausted ∨
       ∃ m s, (runLoop jsonStep responses engine r ec calls ctxs).terminal =
          .executionExhausted m s) := by
  intro r
  induction r with
  | zero => intro ec calls ctxs h; omega
  | succ r ih =>
      intro ec calls ctxs _
      obtain ⟨⟨ec', hretry⟩, hstop⟩ := attemptStep_of_retryable (hall calls)
      cases r with
      | zero =>
          have hb : decide (0 < 0) = false := rfl
          rcases hstop with h | ⟨m, s, h⟩ <;>
            · simp only [runLoop, hb, h]
              simp
      | succ r' =>
          have hb : decide (0 < r' + 1) = true := by simp
          have hrec := ih (some ec') (calls + 1) (ctxs ++ [ec])
            (Nat.succ_le_succ (Nat.zero_le r'))
          simp only [runLoop_succ, hb, hretry] at hrec ⊢
          exact ⟨by omega, hrec.2⟩

/-- The contexts accumulator only grows: the final trace's context list
extends the accumulator. -/
lemma runLoop_contexts_extends (jsonStep : String → Option String)
    (responses : Nat → String) (engine : Engine) :
    ∀ (r : Nat) (ec : Option ErrorContext) (calls : Nat)
      (ctxs : List (Option ErrorContext)),
      ∃ rest, (runLoop jsonStep responses engine r ec calls ctxs).contexts =
        ctxs ++ rest := by
  intro r
  induction r with
  | zero => intro ec calls ctxs; exact ⟨[], by simp [runLoop]⟩
  | succ r ih =>
      intro ec calls ctxs
      cases hd : attemptStep jsonStep engine (responses calls)
          (decide (0 < r)) with
      | stop t => exact ⟨[ec], by simp [runLoop, hd]⟩
      | retry ec' =>
          obtain ⟨rest, hrest⟩ := ih (some ec') (calls + 1) (ctxs ++ [ec])
          exact ⟨[ec] ++ rest, by simp only [runLoop, hd]; rw [hrest]; simp⟩

/-- With at least one remaining iteration, the loop's first action is an
AI call whose prompt is built from the incoming error context: that
context is recorded right after the accumulator. -/
lemma runLoop_contexts_head (jsonStep : String → Option String)
    (responses : Nat → String) (engine : Engine)
    (r : Nat) (ec : Option ErrorContext) (calls : Nat)
    (ctxs : List (Option ErrorContext)) (hr : 1 ≤ r) :
    ∃ rest, (runLoop jsonStep responses engine r ec calls ctxs).contexts =
      ctxs ++ ec :: rest := by
  cases r with
  | zero => omega
  | succ r =>
      cases hd : attemptStep jsonStep engine (responses calls)
          (decide (0 < r)) with
      | stop t => exact ⟨[], by simp [runLoop, hd]⟩
      | retry ec' =>
          obtain ⟨rest, hrest⟩ := runLoop_contexts_extends jsonStep responses
            engine r (some ec') (calls + 1) (ctxs ++ [ec])
          exact ⟨rest, by simp only [runLoop, hd]; rw [hrest]; simp⟩

/-- The user-facing messages of `ErrorHandler.handle_error` never
coincide with either retry-exhausted message of `app.py`: the exhausted
terminals are visibly distinct from every single-attempt failure. -/
lemma handle_error_display_ne_exhausted (et m : String) :
    handle_error_display et m ≠ "❌ SQL抽出に失敗しました（リトライ上限）" ∧
    handle_error_display et m ≠ "❌ SQL実行に失敗しました（リトライ上限）" := by
  cases hf : ERROR_MESSAGES.find? (fun p => p.fst == et) with
  | none =>
      have hd : handle_error_display et m = "❌ エラーが発生しました\n\n" ++ m := by
        unfold handle_error_display dictGet
        rw [hf]
        rfl
      rw [hd]
      constructor <;>
        · intro h
          have h3 := congrArg (fun s => s.data.take 4) h
          simp only [String.data_append] at h3
          rw [List.take_append_of_le_length (by decide)] at h3
          revert h3
          decide
  | some p =>
      have hd : handle_error_display et m = p.snd := by
        unfold handle_error_display dictGet
        rw [hf]
        rfl
      rw [hd]
      have hmem := List.mem_of_find?_eq_some hf
      fin_cases hmem <;> exact ⟨by decide, by decide⟩

/-! ## C2 -/

/-- C2: the retry loop never makes more AI calls than the budget
`MAX_RETRIES` (for any responses and engine); and under consecutive
retryable failures with a positive budget it makes exactly `maxR` AI
calls — never `maxR + 1` — and terminates in a retry-exhausted terminal
whose user-facing message differs from every single-attempt failure
message of `ErrorHandler.handle_error`. -/
theorem c2_retry_budget (jsonStep : String → Option String)
    (responses : Nat → String) (engine : Engine) (maxR : Nat)
    (hall : ∀ k, retryableAttempt jsonStep engine (responses k) = true)
    (hpos : 1 ≤ maxR) :
    (∀ (responses' : Nat → String) (engine' : Engine),
      (main_retry jsonStep responses' engine' maxR).aiCalls ≤ maxR) ∧
    (main_retry jsonStep responses engine maxR).aiCalls = maxR ∧
    ((main_retry jsonStep responses engine maxR).terminal =
        .extractionExhausted ∨
     ∃ m s, (main_retry jsonStep responses engine maxR).terminal =
        .executionExhausted m s) ∧
    (∀ et m,
      terminalDisplay (main_retry jsonStep responses engine maxR).terminal ≠
        handle_error_display et m) := by
  have hmain := runLoop_all_retryable jsonStep responses engine hall maxR
    none 0 [] hpos
  refine ⟨?_, ?_, hmain.2, ?_⟩
  · intro responses' engine'
    have h := runLoop_calls_le jsonStep responses' engine' maxR none 0 []
    simpa [main_retry] using h
  · have h := hmain.1
    simpa [main_retry] using h
  · intro et m
    rcases hmain.2 with h | ⟨m', s', h⟩
    · have h' : (main_retry jsonStep responses engine maxR).terminal =
          Terminal.extractionExhausted := h
      rw [h']
      simp only [terminalDisplay]
      exact fun hh => (handle_error_display_ne_exhausted et m).1 hh.symm
    · have h' : (main_retry jsonStep responses engine maxR).terminal =
          Terminal.executionExhausted m' s' := h
      rw [h']
      simp only [terminalDisplay]
      exact fun hh => (handle_error_display_ne_exhausted et m).2 hh.symm

/-- C2 witness: with budget 3 and every attempt failing extraction (a
retryable failure), exactly 3 AI calls are made and the run ends
retry-exhausted. -/
theorem c2_retry_budget_witness :
    (main_retry jsonNone (fun _ => "x")
        (fun _ => SqliteOutcome.rows [] []) 3).aiCalls = 3 ∧
    (main_retry jsonNone (fun _ => "x")
        (fun _ => SqliteOutcome.rows [] []) 3).terminal =
      .extractionExhausted :=
  ⟨(c2_retry_budget jsonNone (fun _ => "x")
      (fun _ => SqliteOutcome.rows [] []) 3
      (fun _ =>
        (by decide : retryableAttempt jsonNone
          (fun _ => SqliteOutcome.rows [] []) "x" = true))
      (by omega)).2.1,
   by decide⟩

/-! ## C6 -/

/-- C6: whenever extraction returns `invalid_question`, the loop
terminates at once with that failure — the whole trace ends at this
attempt, with no further AI calls; in particular when the first response
is the Japanese sentinel text, the run terminates with `invalid_question`
after exactly 1 AI call. -/
theorem c6_invalid_question_terminates (jsonStep : String → Option String)
    (responses : Nat → String) (engine : Engine) (maxR : Nat)
    (hpos : 1 ≤ maxR)
    (hresp : responses 0 = "ERROR: この質問はデータベースクエリに変換できません") :
    (∀ (r : Nat) (ec : Option ErrorContext) (calls : Nat)
       (ctxs : List (Option ErrorContext)) (msg : String),
       extract_sql jsonStep (responses calls) = .invalidQuestion msg →
       runLoop jsonStep responses engine (r + 1) ec calls ctxs =
         ⟨.invalidQuestion msg, calls + 1, ctxs ++ [ec]⟩) ∧
    (main_retry jsonStep responses engine maxR).terminal =
      .invalidQuestion "ERROR: この質問はデータベースクエリに変換できません" ∧
    (main_retry jsonStep responses engine maxR).aiCalls = 1 := by
  have hgen : ∀ (r : Nat) (ec : Option ErrorContext) (calls : Nat)
      (ctxs : List (Option ErrorContext)) (msg : String),
      extract_sql jsonStep (responses calls) = .invalidQuestion msg →
      runLoop jsonStep responses engine (r + 1) ec calls ctxs =
        ⟨.invalidQuestion msg, calls + 1, ctxs ++ [ec]⟩ := by
    intro r ec calls ctxs msg hx
    have hstep : attemptStep jsonStep engine (responses calls)
        (decide (0 < r)) = .stop (.invalidQuestion msg) := by
      simp [attemptStep, hx]
    rw [runLoop_succ, hstep]
  have hps : pyStrip "ERROR: この質問はデータベースクエリに変換できません" =
      "ERROR: この質問はデータベースクエリに変換できません" := by decide
  have hsent := extract_sql_sentinel jsonStep
    "ERROR: この質問はデータベースクエリに変換できません" (by decide)
  rw [hps] at hsent
  obtain ⟨r, rfl⟩ : ∃ r, maxR = r + 1 := ⟨maxR - 1, by omega⟩
  have hrun := hgen r none 0 [] _ (by rw [hresp]; exact hsent)
  have hm : main_retry jsonStep responses engine (r + 1) =
      ⟨.invalidQuestion "ERROR: この質問はデータベースクエリに変換できません",
       1, [none]⟩ := by
    rw [main_retry, hrun]
    rfl
  exact ⟨hgen, by rw [hm], by rw [hm]⟩

/-- C6 witness: the sentinel response with budget 3: `invalid_question`
terminal after exactly 1 AI call. -/
theorem c6_invalid_question_terminates_witness :
    (main_retry jsonNone
        (fun _ => "ERROR: この質問はデータベースクエリに変換できません")
        (fun _ => SqliteOutcome.rows [] []) 3).terminal =
      .invalidQuestion "ERROR: この質問はデータベースクエリに変換できません" ∧
    (main_retry jsonNone
        (fun _ => "ERROR: この質問はデータベースクエリに変換できません")
        (fun _ => SqliteOutcome.rows [] []) 3).aiCalls = 1 :=
  ⟨(c6_invalid_question_terminates jsonNone
      (fun _ => "ERROR: この質問はデータベースクエリに変換できません")
      (fun _ => SqliteOutcome.rows [] []) 3 (by omega) rfl).2.1,
   (c6_invalid_question_terminates jsonNone
      (fun _ => "ERROR: この質問はデータベースクエリに変換できません")
      (fun _ => SqliteOutcome.rows [] []) 3 (by omega) rfl).2.2⟩

/-! ## C7 -/

/-- C7: execution failures are classified by fixed substring matching
(permission wording → `permission_error`, else `no such column` →
`column_error`, else `no such table` → `table_error`, else
`syntax_error`); the retryability table holds (`syntax_error`,
`column_error`, `table_error`, `extraction_failed` retryable;
`permission_error` not); and after a retryable execution failure with
budget remaining, the next AI call's prompt is generated from an
`ErrorContext` holding the failed SQL and the error message. -/
theorem c7_classify_and_error_context (jsonStep : String → Option String)
    (responses : Nat → String) (engine : Engine) (maxR : Nat)
    (sql m : String)
    (hmax : 2 ≤ maxR)
    (hex : extract_sql jsonStep (responses 0) = .success sql)
    (hexec : connector_execute_query engine sql = .exc m)
    (hretry : should_retry (classify_error m) = true) :
    (∀ w, (containsSub w "禁止操作" = true ∨
           containsSub w "許可されていません" = true) →
       classify_error w = "permission_error") ∧
    (∀ w, containsSub w "禁止操作" = false →
       containsSub w "許可されていません" = false →
       containsSub (asciiLower w) "no such column" = true →
       classify_error w = "column_error") ∧
    (∀ w, containsSub w "禁止操作" = false →
       containsSub w "許可されていません" = false →
       containsSub (asciiLower w) "no such column" = false →
       containsSub (asciiLower w) "no such table" = true →
       classify_error w = "table_error") ∧
    (∀ w, containsSub w "禁止操作" = false →
       containsSub w "許可されていません" = false →
       containsSub (asciiLower w) "no such column" = false →
       containsSub (asciiLower w) "no such table" = false →
       classify_error w = "syntax_error") ∧
    (should_retry "syntax_error" = true ∧
     should_retry "column_error" = true ∧
     should_retry "table_error" = true ∧
     should_retry "extraction_failed" = true ∧
     should_retry "permission_error" = false) ∧
    (∃ rest, (main_retry jsonStep responses engine maxR).contexts =
      none :: some ⟨some sql, m⟩ :: rest) := by
  refine ⟨?_, ?_, ?_, ?_, by decide, ?_⟩
  · intro w hw
    rcases hw with h | h <;> simp [classify_error, h]
  · intro w h1 h2 h3
    simp [classify_error, h1, h2, h3]
  · intro w h1 h2 h3 h4
    simp [classify_error, h1, h2, h3, h4]
  · intro w h1 h2 h3 h4
    simp [classify_error, h1, h2, h3, h4]
  · obtain ⟨r, rfl⟩ : ∃ r, maxR = r + 2 := ⟨maxR - 2, by omega⟩
    have hb : decide (0 < r + 1) = true := by simp
    have hstep : attemptStep jsonStep engine (responses 0)
        (decide (0 < r + 1)) = .retry ⟨some sql, m⟩ := by
      rw [hb]
      simp [attemptStep, hex, hexec, hretry]
    have h1 : main_retry jsonStep responses engine (r + 2) =
        runLoop jsonStep responses engine (r + 1) (some ⟨some sql, m⟩) 1
          [none] := by
      rw [main_retry, runLoop_succ, hstep]
      rfl
    obtain ⟨rest, hrest⟩ := runLoop_contexts_head jsonStep responses engine
      (r + 1) (some ⟨some sql, m⟩) 1 [none] (by omega)
    refine ⟨rest, ?_⟩
    rw [h1, hrest]
    rfl

/-- C7 witness: a first response extracting to `SELECT a FROM t`, an
engine reporting `no such column: a`, budget 3: the error is classified
`column_error` (retryable) and the second AI call's prompt carries the
failed SQL and the wrapped error message. -/
theorem c7_classify_and_error_context_witness :
    classify_error "SQL実行エラー: no such column: a" = "column_error" ∧
    ∃ rest,
      (main_retry jsonNone (fun _ => "SELECT a FROM t")
          (fun _ => SqliteOutcome.opError "no such column: a") 3).contexts =
        none ::
          some ⟨some "SELECT a FROM t",
                "SQL実行エラー: no such column: a"⟩ :: rest :=
  ⟨by decide,
   (c7_classify_and_error_context jsonNone (fun _ => "SELECT a FROM t")
      (fun _ => SqliteOutcome.opError "no such column: a") 3
      "SELECT a FROM t" "SQL実行エラー: no such column: a"
      (by omega) (by decide) (by decide) (by decide)).2.2.2.2.2⟩

end Natural2Sql
